import Mathlib

/-!
# Session controller of `AuthContextProvider.jsx`

A shallow embedding of `src/features/authentication/context/AuthContextProvider.jsx`.

* The five `useState` cells become the record `AuthState`; every setter is a
  function on that record, and an asynchronous function of the component is a
  function from the state before the call to the state after it together with
  the value it resolves to or the error it rejects with (`AuthM`).
* JavaScript values that travel through the component (parsed JSON bodies,
  tokens, user profiles, the stored error) are `JSVal`.
* `fetch` and `response.json()` are the only external calls; what they answer
  is a parameter (`Api`), so every theorem quantifies over every server.
* `formatErrorMessages` lives in `utils/apiResponse`, which is not part of the
  sources at hand; it is a parameter of every function that calls it. It is taken
  to return the display string, so that `new Error(errorMessage).message` is that
  string. Only one statement (the closing example of `register_failure`) uses a
  concrete formatter, the one the specification describes.
* An error is identified with its `message`, the only thing the component reads
  from it; `console.error` writes no state and is left out.
-/

namespace AuthContextProvider

/-! ## JavaScript values -/

/-- A JavaScript value as produced by `JSON.parse`, plus `undefined` (the result
of reading a property that is not there). Numbers are only ever tested for
truthiness here, so an integer stands for them. -/
inductive JSVal where
  | undefined : JSVal
  | null : JSVal
  | bool (b : Bool) : JSVal
  | num (n : Int) : JSVal
  | str (s : String) : JSVal
  | arr (items : List JSVal) : JSVal
  | obj (fields : List (String × JSVal)) : JSVal

/-- A thrown `Error` object; the component only ever reads its `message`. -/
structure JSError where
  message : String

/-- JavaScript truthiness (`ToBoolean`): `undefined`, `null`, `false`, `0` and `""` are falsy. -/
def JSVal.truthy : JSVal → Bool
  | .undefined => false
  | .null => false
  | .bool b => b
  | .num n => n != 0
  | .str s => s != ""
  | .arr _ => true
  | .obj _ => true

/-- The test `v === null`. -/
def JSVal.isNull : JSVal → Bool
  | .null => true
  | _ => false

/-- The message of the `TypeError` thrown by a property read on `undefined` or `null`
(wording of V8; no statement below depends on the wording). -/
def typeErrorMessage (base key : String) : String :=
  "Cannot read properties of " ++ base ++ " (reading " ++ "\x27" ++ key ++ "\x27" ++ ")"

/-- The property read `v.key`: a `TypeError` on `undefined` and `null`, the field of an
object when it has one, `undefined` in every other case (none of the keys read by the
component is a built-in property of a string, number, boolean or array). -/
def JSVal.getProp (v : JSVal) (key : String) : Except JSError JSVal :=
  match v with
  | .undefined => .error ⟨typeErrorMessage "undefined" key⟩
  | .null => .error ⟨typeErrorMessage "null" key⟩
  | .obj fields => .ok ((fields.lookup key).getD .undefined)
  | _ => .ok .undefined

/-! ## The network -/

/-- What the component sees of a `Response`: the flag `response.ok` and what
`await response.json()` gives, which rejects when the body is not JSON. -/
structure Response where
  ok : Bool
  json : Except JSError JSVal

/-- The four endpoints. Each field is what `await fetch(...)` gives for the request the
component sends: a rejection (network failure) or a response. -/
structure Api where
  /-- The call `GET /refresh`. -/
  refresh : Except JSError Response
  /-- The call `POST /me` with `Authorization: Bearer ${accessToken}`. -/
  me : JSVal → Except JSError Response
  /-- The call `POST /login` with body `{ email, password }`. -/
  login : JSVal → JSVal → Except JSError Response
  /-- The call `POST /register` with body `{ email, password, password_confirmation }`. -/
  register : JSVal → JSVal → JSVal → Except JSError Response

/-! ## The state of the component -/

/-- The five `useState` cells of `AuthProvider` (lines 11-15). -/
structure AuthState where
  authToken : JSVal
  user : JSVal
  isLoggedIn : Bool
  error : JSVal
  isLoading : Bool

/-- The initial values passed to `useState`. -/
def initialState : AuthState :=
  { authToken := .null, user := .null, isLoggedIn := false, error := .null, isLoading := true }

/-- The state after a call, and how the call ended. -/
structure Outcome (α : Type) where
  state : AuthState
  result : Except JSError α

/-- A function of the component: from the state before to the outcome. -/
def AuthM (α : Type) : Type := AuthState → Outcome α

namespace AuthM

/-- Return normally. -/
def ret {α : Type} (a : α) : AuthM α := fun s => ⟨s, .ok a⟩

/-- The statement `throw e`. -/
def raise {α : Type} (e : JSError) : AuthM α := fun s => ⟨s, .error e⟩

/-- Sequencing: a throw in the first part skips the second. -/
def andThen {α β : Type} (m : AuthM α) (f : α → AuthM β) : AuthM β := fun s =>
  match m s with
  | ⟨s1, .ok a⟩ => f a s1
  | ⟨s1, .error e⟩ => ⟨s1, .error e⟩

/-- The statement `try { body } catch (error) { handler }`; state written by the body
before it threw stays written. -/
def tryCatch {α : Type} (body : AuthM α) (handler : JSError → AuthM α) : AuthM α := fun s =>
  match body s with
  | ⟨s1, .ok a⟩ => ⟨s1, .ok a⟩
  | ⟨s1, .error e⟩ => handler e s1

/-- An external call or property read: no state is written. -/
def await {α : Type} (x : Except JSError α) : AuthM α := fun s => ⟨s, x⟩

/-- A state setter. -/
def set (f : AuthState → AuthState) : AuthM Unit := fun s => ⟨f s, .ok ()⟩

/-- Read the current state. -/
def read : AuthM AuthState := fun s => ⟨s, .ok s⟩

end AuthM

instance : Monad AuthM where
  pure := AuthM.ret
  bind := AuthM.andThen

instance : MonadExcept JSError AuthM where
  throw := AuthM.raise
  tryCatch := AuthM.tryCatch

/-! ## Setters -/

def setAuthToken (v : JSVal) (s : AuthState) : AuthState := { s with authToken := v }
def setUser (v : JSVal) (s : AuthState) : AuthState := { s with user := v }
def setIsLoggedIn (b : Bool) (s : AuthState) : AuthState := { s with isLoggedIn := b }
def setError (v : JSVal) (s : AuthState) : AuthState := { s with error := v }
def setIsLoading (b : Bool) (s : AuthState) : AuthState := { s with isLoading := b }

/-- Lines 165-170. -/
def setSession (accessToken user : JSVal) (s : AuthState) : AuthState :=
  setIsLoading false (setIsLoggedIn true (setUser user (setAuthToken accessToken s)))

/-- Lines 172-177. -/
def resetSession (s : AuthState) : AuthState :=
  setIsLoading false (setIsLoggedIn false (setUser .null (setAuthToken .null s)))

/-- Lines 179-181. -/
def resetError (s : AuthState) : AuthState :=
  setError .null s

/-! ## The asynchronous functions -/

/-- Lines 37-64. The `catch` logs and throws the same error again. -/
def requestAccessToken (formatErrorMessages : JSVal → String) (api : Api) : AuthM JSVal :=
  tryCatch
    (do
      let response ← AuthM.await api.refresh
      let json ← AuthM.await response.json
      if !response.ok then
        let message ← AuthM.await (json.getProp "message")
        let errorMessage := formatErrorMessages message
        throw (JSError.mk errorMessage)
      let data ← AuthM.await (json.getProp "data")
      let newAccessToken ← AuthM.await (data.getProp "access_token")
      return newAccessToken)
    (fun error => throw error)

/-- Lines 66-92. In `!response.ok || json.data === null` the right operand is only
evaluated when the response is ok. The `catch` logs and throws the same error again. -/
def requestUserData (formatErrorMessages : JSVal → String) (api : Api) (accessToken : JSVal) :
    AuthM JSVal :=
  tryCatch
    (do
      let response ← AuthM.await (api.me accessToken)
      let json ← AuthM.await response.json
      let failed ←
        if !response.ok then pure true
        else do
          let data ← AuthM.await (json.getProp "data")
          pure data.isNull
      if failed then
        let message ← AuthM.await (json.getProp "message")
        let errorMessage := formatErrorMessages message
        throw (JSError.mk errorMessage)
      let data ← AuthM.await (json.getProp "data")
      return data)
    (fun error => throw error)

/-- The `try` block of `checkAuth` (lines 25-30): `authToken || await requestAccessToken()`
only calls `requestAccessToken` when the stored token is falsy. -/
def checkAuthTry (formatErrorMessages : JSVal → String) (api : Api) : AuthM Unit := do
  let authToken := (← AuthM.read).authToken
  let accessToken ←
    if authToken.truthy then pure authToken
    else requestAccessToken formatErrorMessages api
  if !accessToken.truthy then
    throw (JSError.mk "Failed to refresh access token")
  let user ← requestUserData formatErrorMessages api accessToken
  AuthM.set (setSession accessToken user)

/-- Lines 21-35. The `catch` logs, resets the session and does not throw. -/
def checkAuth (formatErrorMessages : JSVal → String) (api : Api) : AuthM Unit := do
  AuthM.set (setIsLoading true)
  tryCatch (checkAuthTry formatErrorMessages api) (fun _ => AuthM.set resetSession)

/-- Lines 94-127. -/
def login (formatErrorMessages : JSVal → String) (api : Api) (email password : JSVal) :
    AuthM Unit := do
  AuthM.set (setIsLoading true)
  tryCatch
    (do
      let response ← AuthM.await (api.login email password)
      let json ← AuthM.await response.json
      if !response.ok then
        let message ← AuthM.await (json.getProp "message")
        let errorMessage := formatErrorMessages message
        throw (JSError.mk errorMessage)
      let data ← AuthM.await (json.getProp "data")
      let accessToken ← AuthM.await (data.getProp "access_token")
      let user ← requestUserData formatErrorMessages api accessToken
      AuthM.set (setSession accessToken user))
    (fun error => do
      AuthM.set (setError (.str error.message))
      AuthM.set resetSession
      throw error)

/-- Lines 129-163. -/
def register (formatErrorMessages : JSVal → String) (api : Api)
    (email password passwordConfirmation : JSVal) : AuthM Bool := do
  AuthM.set (setIsLoading true)
  tryCatch
    (do
      let response ← AuthM.await (api.register email password passwordConfirmation)
      let json ← AuthM.await response.json
      if !response.ok then
        let message ← AuthM.await (json.getProp "message")
        let errorMessage := formatErrorMessages message
        throw (JSError.mk errorMessage)
      AuthM.set (setIsLoading false)
      return true)
    (fun error => do
      AuthM.set (setError (.str error.message))
      AuthM.set resetSession
      throw error)

/-- Modelled from the spec: `formatErrorMessages` of `utils/apiResponse`, a file that is not
among the sources. The spec (sections 4.1 and 8.5) fixes two cases: a single string is kept
as it is, and a collection of strings is joined, `"A, B"` for `["A","B"]`. The spec leaves
every other input open; here entries that are not strings are skipped and any other value gives
the empty string. -/
def formatErrorMessages : JSVal → String
  | .str s => s
  | .arr items => ", ".intercalate (items.filterMap fun v => match v with
      | .str s => some s
      | _ => none)
  | _ => ""

/-! ## Runs of the controller -/

/-- One completed operation of the controller together with what the server answered
during it. `checkAuth` is the bootstrap run by `useEffect`; the other three are the
operations exported through `authValues`. -/
inductive Op where
  | checkAuth (api : Api) : Op
  | login (api : Api) (email password : JSVal) : Op
  | register (api : Api) (email password passwordConfirmation : JSVal) : Op
  | resetError : Op

/-- The state after one operation, whether it resolved or rejected. -/
def Op.run (fmt : JSVal → String) : Op → AuthState → AuthState
  | .checkAuth api, s => (AuthContextProvider.checkAuth fmt api s).state
  | .login api email password, s => (AuthContextProvider.login fmt api email password s).state
  | .register api email password passwordConfirmation, s =>
      (AuthContextProvider.register fmt api email password passwordConfirmation s).state
  | .resetError, s => AuthContextProvider.resetError s

/-- The state after a sequence of operations, each run to completion before the next. -/
def runOps (fmt : JSVal → String) (ops : List Op) (s : AuthState) : AuthState :=
  ops.foldl (fun st op => op.run fmt st) s

/-- States reachable from the initial state. -/
def Reachable (fmt : JSVal → String) (s : AuthState) : Prop :=
  ∃ ops : List Op, runOps fmt ops initialState = s

/-- The invariant of the data model: `user` present iff `authToken` present iff logged in,
where present means different from `null`. -/
def sessionInvariant (s : AuthState) : Prop :=
  (s.user ≠ .null ↔ s.authToken ≠ .null) ∧ (s.authToken ≠ .null ↔ s.isLoggedIn = true)

/-! ## Concrete servers used in the examples -/

/-- A response with a JSON body. -/
def respond (ok : Bool) (body : JSVal) : Except JSError Response :=
  .ok { ok := ok, json := .ok body }

/-- An endpoint that cannot be reached: `fetch` rejects. -/
def networkFailure : Except JSError Response :=
  .error { message := "Failed to fetch" }

/-- A server none of whose endpoints can be reached. -/
def offlineApi : Api :=
  { refresh := networkFailure, me := fun _ => networkFailure, login := fun _ _ => networkFailure,
    register := fun _ _ _ => networkFailure }

/-- The profile `{id: 1, name: "U"}` of the scenario in section 8 of the spec. -/
def profileU : JSVal := .obj [("id", .num 1), ("name", .str "U")]

/-- The body `{data: {access_token: token}}`. -/
def tokenBody (token : JSVal) : JSVal := .obj [("data", .obj [("access_token", token)])]

/-- The server of the login scenario: `/login` and `/refresh` answer 200 with token `"t1"`,
`/me` answers 200 with `profileU`. -/
def scenarioApi : Api :=
  { offlineApi with
    refresh := respond true (tokenBody (.str "t1"))
    login := fun _ _ => respond true (tokenBody (.str "t1"))
    me := fun _ => respond true (.obj [("data", profileU)]) }

/-- A server whose `/login` and `/refresh` answer 200 with `{data: {access_token: null}}` and
whose `/me` (which also receives the cookies) answers 200 with `profileU`. -/
def nullTokenApi : Api :=
  { offlineApi with
    refresh := respond true (tokenBody .null)
    login := fun _ _ => respond true (tokenBody .null)
    me := fun _ => respond true (.obj [("data", profileU)]) }

/-- A server whose `/login` answers 401 with `{message: "Invalid credentials"}`. -/
def invalidCredentialsApi : Api :=
  { offlineApi with login := fun _ _ => respond false (.obj [("message", .str "Invalid credentials")]) }

/-- A server whose `/register` answers 422 with `{message: "Email taken"}`. -/
def emailTakenApi : Api :=
  { offlineApi with
    register := fun _ _ _ => respond false (.obj [("message", .str "Email taken")]) }

/-- A server whose `/register` answers with a success status and an empty body (for example
204 No Content), on which `response.json()` rejects. -/
def emptyBodyRegisterApi : Api :=
  { offlineApi with
    register := fun _ _ _ =>
      .ok { ok := true, json := .error { message := "Unexpected end of JSON input" } } }

/-- A server whose `/register` answers 201 with the body `{}`. -/
def createdRegisterApi : Api :=
  { offlineApi with register := fun _ _ _ => respond true (.obj []) }

/-- A server whose `/me` answers 200 with the JSON body `null`. -/
def nullPayloadApi : Api :=
  { offlineApi with me := fun _ => respond true .null }

/-- A state with a session and a stored error, used as a pre-state in the examples. -/
def staleState : AuthState :=
  { authToken := .str "t0", user := profileU, isLoggedIn := true, error := .str "old",
    isLoading := false }

/-! ## Evaluation rules of the embedding -/

section Rules
variable {α β : Type}

@[simp] theorem bind_def (m : AuthM α) (f : α → AuthM β) : (m >>= f) = AuthM.andThen m f := rfl
@[simp] theorem pure_def (a : α) : (pure a : AuthM α) = AuthM.ret a := rfl
@[simp] theorem throw_def (e : JSError) : (throw e : AuthM α) = AuthM.raise e := rfl
@[simp] theorem tryCatch_def (b : AuthM α) (h : JSError → AuthM α) :
    tryCatch b h = AuthM.tryCatch b h := rfl

@[simp] theorem ret_run (a : α) (s : AuthState) : AuthM.ret a s = ⟨s, .ok a⟩ := rfl
@[simp] theorem raise_run (e : JSError) (s : AuthState) :
    (AuthM.raise e : AuthM α) s = ⟨s, .error e⟩ := rfl
@[simp] theorem set_run (g : AuthState → AuthState) (s : AuthState) :
    AuthM.set g s = ⟨g s, .ok ()⟩ := rfl
@[simp] theorem read_run (s : AuthState) : AuthM.read s = ⟨s, .ok s⟩ := rfl
@[simp] theorem await_run (x : Except JSError α) (s : AuthState) : AuthM.await x s = ⟨s, x⟩ := rfl

theorem andThen_ok {m : AuthM α} {s s1 : AuthState} {a : α} (f : α → AuthM β)
    (h : m s = ⟨s1, .ok a⟩) : AuthM.andThen m f s = f a s1 := by
  simp [AuthM.andThen, h]

theorem andThen_error {m : AuthM α} {s s1 : AuthState} {e : JSError} (f : α → AuthM β)
    (h : m s = ⟨s1, .error e⟩) : AuthM.andThen m f s = ⟨s1, .error e⟩ := by
  simp [AuthM.andThen, h]

@[simp] theorem andThen_ret (a : α) (f : α → AuthM β) (s : AuthState) :
    AuthM.andThen (AuthM.ret a) f s = f a s := rfl
@[simp] theorem andThen_raise (e : JSError) (f : α → AuthM β) (s : AuthState) :
    AuthM.andThen (AuthM.raise e) f s = ⟨s, .error e⟩ := rfl
@[simp] theorem andThen_set (g : AuthState → AuthState) (f : Unit → AuthM β) (s : AuthState) :
    AuthM.andThen (AuthM.set g) f s = f () (g s) := rfl
@[simp] theorem andThen_read (f : AuthState → AuthM β) (s : AuthState) :
    AuthM.andThen AuthM.read f s = f s s := rfl
@[simp] theorem andThen_await_ok (a : α) (f : α → AuthM β) (s : AuthState) :
    AuthM.andThen (AuthM.await (.ok a)) f s = f a s := rfl
@[simp] theorem andThen_await_error (e : JSError) (f : α → AuthM β) (s : AuthState) :
    AuthM.andThen (AuthM.await (.error e : Except JSError α)) f s = ⟨s, .error e⟩ := rfl

theorem tryCatch_ok {b : AuthM α} {s s1 : AuthState} {a : α} (h : JSError → AuthM α)
    (hb : b s = ⟨s1, .ok a⟩) : AuthM.tryCatch b h s = ⟨s1, .ok a⟩ := by
  simp [AuthM.tryCatch, hb]

theorem tryCatch_error {b : AuthM α} {s s1 : AuthState} {e : JSError} (h : JSError → AuthM α)
    (hb : b s = ⟨s1, .error e⟩) : AuthM.tryCatch b h s = h e s1 := by
  simp [AuthM.tryCatch, hb]

/-- A handler that throws the error it caught changes nothing. -/
@[simp] theorem tryCatch_rethrow (b : AuthM α) :
    AuthM.tryCatch b (fun error => AuthM.raise error) = b := by
  funext s
  unfold AuthM.tryCatch
  rcases h : b s with ⟨s1, r⟩
  cases r <;> rfl

end Rules

/-! ## Generic facts about the functions -/

/-- `requestUserData` calls no setter, and what it gives does not depend on the state. -/
theorem requestUserData_run (fmt : JSVal → String) (api : Api) (t : JSVal) (s : AuthState) :
    requestUserData fmt api t s = ⟨s, (requestUserData fmt api t initialState).result⟩ := by
  simp only [requestUserData, bind_def, pure_def, throw_def, tryCatch_def, tryCatch_rethrow]
  rcases api.me t with e | ⟨ok, j⟩
  · simp
  · rcases j with e | j
    · simp
    · cases ok <;> simp
      · cases j.getProp "message" <;> simp
      · cases h : j.getProp "data" <;> simp
        rename_i d
        cases hd : d.isNull <;> simp [h]
        cases j.getProp "message" <;> simp

/-- The same result from any two states. -/
theorem requestUserData_result (fmt : JSVal → String) (api : Api) (t : JSVal) (s s1 : AuthState) :
    (requestUserData fmt api t s).result = (requestUserData fmt api t s1).result := by
  rw [requestUserData_run fmt api t s, requestUserData_run fmt api t s1]

/-- What `requestUserData` returns is never `null`. -/
theorem requestUserData_ok_not_null (fmt : JSVal → String) (api : Api) (t : JSVal) (s : AuthState)
    (u : JSVal) (h : (requestUserData fmt api t s).result = .ok u) : u.isNull = false := by
  revert h
  simp only [requestUserData, bind_def, pure_def, throw_def, tryCatch_def, tryCatch_rethrow]
  rcases api.me t with e | ⟨ok, j⟩
  · simp
  · rcases j with e | j
    · simp
    · cases ok <;> simp
      · cases j.getProp "message" <;> simp
      · cases h : j.getProp "data" <;> simp
        rename_i d
        cases hd : d.isNull <;> simp [h]
        · intro h; rw [← h]; exact hd
        · cases j.getProp "message" <;> simp

/-- `requestAccessToken` calls no setter, and what it gives does not depend on the state. -/
theorem requestAccessToken_run (fmt : JSVal → String) (api : Api) (s : AuthState) :
    requestAccessToken fmt api s = ⟨s, (requestAccessToken fmt api initialState).result⟩ := by
  simp only [requestAccessToken, bind_def, pure_def, throw_def, tryCatch_def, tryCatch_rethrow]
  rcases api.refresh with e | ⟨ok, j⟩
  · simp
  · rcases j with e | j
    · simp
    · cases ok <;> simp
      · cases j.getProp "message" <;> simp
      · rcases j.getProp "data" with e | d <;> simp
        cases d.getProp "access_token" <;> simp

theorem isNull_eq_true (v : JSVal) : v.isNull = true ↔ v = .null := by
  cases v <;> simp [JSVal.isNull]

theorem isNull_eq_false (v : JSVal) : v.isNull = false ↔ v ≠ .null := by
  cases v <;> simp [JSVal.isNull]

/-- Reading a property only fails on `undefined` and `null`. -/
theorem getProp_error_iff (v : JSVal) (key : String) :
    (∃ e, v.getProp key = .error e) ↔ (v = .null ∨ v = .undefined) := by
  cases v <;> simp [JSVal.getProp]

/-- The two ways `login` can end. -/
theorem login_cases (fmt : JSVal → String) (api : Api) (email password : JSVal) (s : AuthState) :
    (∃ t u, (requestUserData fmt api t s).result = .ok u ∧
        login fmt api email password s = ⟨setSession t u (setIsLoading true s), .ok ()⟩) ∨
    (∃ e, login fmt api email password s =
        ⟨resetSession (setError (.str e.message) (setIsLoading true s)), .error e⟩) := by
  simp only [login, bind_def, pure_def, throw_def, tryCatch_def]
  rcases hl : api.login email password with e | ⟨ok, j⟩
  · right; exact ⟨e, by simp [AuthM.tryCatch]⟩
  · rcases j with e | j
    · right; exact ⟨e, by simp [AuthM.tryCatch]⟩
    · cases ok
      · right
        rcases hm : j.getProp "message" with e | m
        · exact ⟨e, by simp [AuthM.tryCatch, hm]⟩
        · exact ⟨⟨fmt m⟩, by simp [AuthM.tryCatch, hm]⟩
      · rcases hd : j.getProp "data" with e | d
        · right; exact ⟨e, by simp [AuthM.tryCatch, hd]⟩
        · rcases ht : d.getProp "access_token" with e | t
          · right; exact ⟨e, by simp [AuthM.tryCatch, hd, ht]⟩
          · rcases hu : (requestUserData fmt api t initialState).result with e | u
            · right
              refine ⟨e, ?_⟩
              simp [AuthM.tryCatch, hd, ht]
              rw [andThen_error _ (by rw [requestUserData_run, hu])]
            · left
              refine ⟨t, u, by rw [requestUserData_run, hu], ?_⟩
              simp [AuthM.tryCatch, hd, ht]
              rw [andThen_ok _ (by rw [requestUserData_run, hu])]
              simp

/-- What `login` does once both endpoints have answered with a parsed success body:
it ends as `requestUserData` ends. -/
theorem login_of_token (fmt : JSVal → String) (api : Api) (email password : JSVal)
    (s : AuthState) (j d t : JSVal)
    (hl : api.login email password = .ok ⟨true, .ok j⟩)
    (hd : j.getProp "data" = .ok d) (ht : d.getProp "access_token" = .ok t) :
    login fmt api email password s =
      match (requestUserData fmt api t s).result with
      | .ok u => ⟨setSession t u (setIsLoading true s), .ok ()⟩
      | .error e => ⟨resetSession (setError (.str e.message) (setIsLoading true s)), .error e⟩ := by
  simp only [login, bind_def, pure_def, throw_def, tryCatch_def]
  rw [requestUserData_result fmt api t s initialState]
  rcases hu : (requestUserData fmt api t initialState).result with e | u
  · simp [AuthM.tryCatch, hl, hd, ht]
    rw [andThen_error _ (by rw [requestUserData_run, hu])]
  · simp [AuthM.tryCatch, hl, hd, ht]
    rw [andThen_ok _ (by rw [requestUserData_run, hu])]
    simp

/-- The `try` block of `checkAuth`, case by case. -/
theorem checkAuthTry_eq (fmt : JSVal → String) (api : Api) (s : AuthState) :
    checkAuthTry fmt api s =
      match (if s.authToken.truthy then Except.ok s.authToken
              else (requestAccessToken fmt api s).result) with
      | .error e => ⟨s, .error e⟩
      | .ok t =>
        if t.truthy then
          match (requestUserData fmt api t s).result with
          | .ok u => ⟨setSession t u s, .ok ()⟩
          | .error e => ⟨s, .error e⟩
        else ⟨s, .error ⟨"Failed to refresh access token"⟩⟩ := by
  simp only [checkAuthTry, bind_def, pure_def, throw_def]
  rw [andThen_read]
  cases hs : s.authToken.truthy
  · simp only [Bool.false_eq_true, if_false]
    have hr : (requestAccessToken fmt api s).result =
        (requestAccessToken fmt api initialState).result := by
      rw [requestAccessToken_run fmt api s]
    rw [hr]
    rcases ha : (requestAccessToken fmt api initialState).result with e | t
    · rw [andThen_error _ (by rw [requestAccessToken_run, ha])]
    · rw [andThen_ok _ (by rw [requestAccessToken_run, ha])]
      simp only []
      rw [requestUserData_result fmt api t s initialState]
      cases ht : t.truthy
      · simp
      · rcases hu : (requestUserData fmt api t initialState).result with e | u
        · simp
          rw [andThen_error _ (by rw [requestUserData_run, hu])]
        · simp
          rw [andThen_ok _ (by rw [requestUserData_run, hu])]
          simp
  · simp only [if_true]
    rw [andThen_ret]
    rw [requestUserData_result fmt api s.authToken s initialState]
    rcases hu : (requestUserData fmt api s.authToken initialState).result with e | u
    · simp [hs]
      rw [andThen_error _ (by rw [requestUserData_run, hu])]
    · simp [hs]
      rw [andThen_ok _ (by rw [requestUserData_run, hu])]
      simp

/-- The two ways `checkAuth` can end. -/
theorem checkAuth_cases (fmt : JSVal → String) (api : Api) (s : AuthState) :
    (∃ t u, (requestUserData fmt api t s).result = .ok u ∧
        checkAuth fmt api s = ⟨setSession t u (setIsLoading true s), .ok ()⟩) ∨
    checkAuth fmt api s = ⟨resetSession (setIsLoading true s), .ok ()⟩ := by
  have hrun : checkAuth fmt api s =
      AuthM.tryCatch (checkAuthTry fmt api) (fun _ => AuthM.set resetSession)
        (setIsLoading true s) := rfl
  have hbody := checkAuthTry_eq fmt api (setIsLoading true s)
  rcases htk : (if (setIsLoading true s).authToken.truthy then
        Except.ok (setIsLoading true s).authToken
      else (requestAccessToken fmt api (setIsLoading true s)).result) with e | t
  · rw [htk] at hbody
    right
    rw [hrun, tryCatch_error _ hbody]
    rfl
  · rw [htk] at hbody
    simp only [] at hbody
    cases htt : t.truthy
    · rw [htt] at hbody
      right
      rw [hrun, tryCatch_error _ hbody]
      rfl
    · rw [htt, requestUserData_result fmt api t _ s] at hbody
      rcases hu : (requestUserData fmt api t s).result with e | u
      · rw [hu] at hbody
        right
        rw [hrun, tryCatch_error _ hbody]
        rfl
      · rw [hu] at hbody
        left
        exact ⟨t, u, hu, by rw [hrun, tryCatch_ok _ hbody]⟩

/-- The two ways `register` can end. -/
theorem register_cases (fmt : JSVal → String) (api : Api)
    (email password passwordConfirmation : JSVal) (s : AuthState) :
    register fmt api email password passwordConfirmation s =
        ⟨setIsLoading false (setIsLoading true s), .ok true⟩ ∨
    (∃ e, register fmt api email password passwordConfirmation s =
        ⟨resetSession (setError (.str e.message) (setIsLoading true s)), .error e⟩) := by
  simp only [register, bind_def, pure_def, throw_def, tryCatch_def]
  rcases hr : api.register email password passwordConfirmation with e | ⟨ok, j⟩
  · right; exact ⟨e, by simp [AuthM.tryCatch]⟩
  · rcases j with e | j
    · right; exact ⟨e, by simp [AuthM.tryCatch]⟩
    · cases ok
      · right
        rcases hm : j.getProp "message" with e | m
        · exact ⟨e, by simp [AuthM.tryCatch, hm]⟩
        · exact ⟨⟨fmt m⟩, by simp [AuthM.tryCatch, hm]⟩
      · left
        simp [AuthM.tryCatch]

/-- The part of the session invariant that one operation cannot break: a user is stored
exactly when `isLoggedIn` is true, and a stored token implies `isLoggedIn`. -/
theorem loggedIn_iff_user_step (fmt : JSVal → String) (op : Op) (s : AuthState)
    (h : (s.user ≠ .null ↔ s.isLoggedIn = true) ∧ (s.authToken ≠ .null → s.isLoggedIn = true)) :
    ((op.run fmt s).user ≠ .null ↔ (op.run fmt s).isLoggedIn = true) ∧
    ((op.run fmt s).authToken ≠ .null → (op.run fmt s).isLoggedIn = true) := by
  cases op with
  | checkAuth api =>
    simp only [Op.run]
    rcases checkAuth_cases fmt api s with ⟨t, u, hu, hc⟩ | hc
    · rw [hc]
      have hn := (isNull_eq_false u).mp (requestUserData_ok_not_null fmt api t s u hu)
      exact ⟨⟨fun _ => rfl, fun _ => hn⟩, fun _ => rfl⟩
    · rw [hc]
      exact ⟨⟨fun hx => absurd rfl hx, fun hx => by cases hx⟩, fun hx => absurd rfl hx⟩
  | login api email password =>
    simp only [Op.run]
    rcases login_cases fmt api email password s with ⟨t, u, hu, hc⟩ | ⟨e, hc⟩
    · rw [hc]
      have hn := (isNull_eq_false u).mp (requestUserData_ok_not_null fmt api t s u hu)
      exact ⟨⟨fun _ => rfl, fun _ => hn⟩, fun _ => rfl⟩
    · rw [hc]
      exact ⟨⟨fun hx => absurd rfl hx, fun hx => by cases hx⟩, fun hx => absurd rfl hx⟩
  | register api email password passwordConfirmation =>
    simp only [Op.run]
    rcases register_cases fmt api email password passwordConfirmation s with hc | ⟨e, hc⟩
    · rw [hc]
      exact h
    · rw [hc]
      exact ⟨⟨fun hx => absurd rfl hx, fun hx => by cases hx⟩, fun hx => absurd rfl hx⟩
  | resetError => exact h

/-- In every reachable state a user is stored exactly when `isLoggedIn` is true, and a stored
token implies `isLoggedIn`. (The converse of the second part is what `login` can break.) -/
theorem reachable_loggedIn_iff_user (fmt : JSVal → String) (s : AuthState)
    (h : Reachable fmt s) :
    (s.user ≠ .null ↔ s.isLoggedIn = true) ∧ (s.authToken ≠ .null → s.isLoggedIn = true) := by
  obtain ⟨ops, rfl⟩ := h
  have gen : ∀ (ops : List Op) (s0 : AuthState),
      ((s0.user ≠ .null ↔ s0.isLoggedIn = true) ∧ (s0.authToken ≠ .null → s0.isLoggedIn = true)) →
      (((runOps fmt ops s0).user ≠ .null ↔ (runOps fmt ops s0).isLoggedIn = true) ∧
        ((runOps fmt ops s0).authToken ≠ .null → (runOps fmt ops s0).isLoggedIn = true)) := by
    intro ops
    induction ops with
    | nil => intro s0 h0; exact h0
    | cons op rest ih =>
      intro s0 h0
      exact ih (op.run fmt s0) (loggedIn_iff_user_step fmt op s0 h0)
  exact gen ops initialState ⟨⟨fun hx => absurd rfl hx, fun hx => by cases hx⟩, fun hx => absurd rfl hx⟩

/-! ## The claims -/

/-- C9: `resetSession` is idempotent, and the state it gives has no token, no user,
`isLoggedIn = false`, `isLoading = false` and the error of the state it started from. -/
theorem resetSession_idempotent (s : AuthState) :
    resetSession (resetSession s) = resetSession s ∧
    (resetSession s).authToken = .null ∧ (resetSession s).user = .null ∧
    (resetSession s).isLoggedIn = false ∧ (resetSession s).isLoading = false ∧
    (resetSession s).error = s.error :=
  ⟨rfl, rfl, rfl, rfl, rfl, rfl⟩

/-- C10: `resetError` sets the stored error to `null` and leaves `authToken`, `user`,
`isLoggedIn` and `isLoading` as they were. -/
theorem resetError_frame (s : AuthState) :
    (resetError s).error = .null ∧ (resetError s).authToken = s.authToken ∧
    (resetError s).user = s.user ∧ (resetError s).isLoggedIn = s.isLoggedIn ∧
    (resetError s).isLoading = s.isLoading :=
  ⟨rfl, rfl, rfl, rfl, rfl⟩

/-- C3: when `/login` answers with success and `data.access_token = t`, and `/me` then
answers with success and `data = u` with `u` not `null`, `login` on a state whose stored
error is `null` resolves and the final state is exactly
`{ authToken: t, user: u, isLoggedIn: true, isLoading: false, error: null }`. -/
theorem login_success (fmt : JSVal → String) (api : Api) (email password : JSVal)
    (s : AuthState) (j d t j2 u : JSVal)
    (hl : api.login email password = .ok ⟨true, .ok j⟩)
    (hd : j.getProp "data" = .ok d) (ht : d.getProp "access_token" = .ok t)
    (hm : api.me t = .ok ⟨true, .ok j2⟩)
    (hu : j2.getProp "data" = .ok u) (hnn : u ≠ .null)
    (herr : s.error = .null) :
    login fmt api email password s =
      ⟨{ authToken := t, user := u, isLoggedIn := true, isLoading := false, error := .null },
        .ok ()⟩ := by
  have hrud : (requestUserData fmt api t s).result = .ok u := by
    have hn : u.isNull = false := (isNull_eq_false u).mpr hnn
    simp [requestUserData, hm, hu, hn]
  rw [login_of_token fmt api email password s j d t hl hd ht, hrud]
  simp [setSession, setIsLoading, setIsLoggedIn, setUser, setAuthToken, herr]

/-- The scenario of the spec: token `"t1"` and profile `{id: 1, name: "U"}`. -/
theorem login_success_witness :
    login formatErrorMessages scenarioApi (.str "u@x.com") (.str "pw") initialState =
      ⟨{ authToken := .str "t1", user := profileU, isLoggedIn := true, isLoading := false,
         error := .null }, .ok ()⟩ :=
  login_success formatErrorMessages scenarioApi (.str "u@x.com") (.str "pw") initialState
    (tokenBody (.str "t1")) (.obj [("access_token", .str "t1")]) (.str "t1")
    (.obj [("data", profileU)]) profileU rfl rfl rfl rfl rfl (by simp [profileU]) rfl

/-- C2: whenever `login` rejects with an error `e`, the final state has no token, no user,
`isLoggedIn = false`, `isLoading = false` and stored error `e.message`. Both causes named
by the claim do make it reject: a non-success answer of `/login`, and a success answer
carrying a token followed by a failing `requestUserData`, whose error is the one raised. -/
theorem login_failure (fmt : JSVal → String) (api : Api) (email password : JSVal)
    (s : AuthState) :
    (∀ e, (login fmt api email password s).result = .error e →
      (login fmt api email password s).state =
        { authToken := .null, user := .null, isLoggedIn := false, isLoading := false,
          error := .str e.message }) ∧
    (∀ r, api.login email password = .ok r → r.ok = false →
      ∃ e, (login fmt api email password s).result = .error e) ∧
    (∀ j d t e, api.login email password = .ok ⟨true, .ok j⟩ → j.getProp "data" = .ok d →
      d.getProp "access_token" = .ok t → (requestUserData fmt api t s).result = .error e →
      (login fmt api email password s).result = .error e) := by
  refine ⟨?_, ?_, ?_⟩
  · intro e he
    rcases login_cases fmt api email password s with ⟨t, u, _, h⟩ | ⟨e1, h⟩
    · rw [h] at he; cases he
    · rw [h] at he ⊢
      cases he
      rfl
  · intro r hr hok
    rcases r with ⟨ok, j⟩
    cases hok
    simp only [login, bind_def, pure_def, throw_def, tryCatch_def]
    rcases j with e | j
    · exact ⟨e, by simp [AuthM.tryCatch, hr]⟩
    · rcases hm : j.getProp "message" with e | m
      · exact ⟨e, by simp [AuthM.tryCatch, hr, hm]⟩
      · exact ⟨⟨fmt m⟩, by simp [AuthM.tryCatch, hr, hm]⟩
  · intro j d t e hl hd ht hu
    rw [login_of_token fmt api email password s j d t hl hd ht, hu]

/-- A wrong password on top of an existing session: `/login` answers 401 with
`{message: "Invalid credentials"}`. -/
theorem login_failure_witness :
    (login formatErrorMessages invalidCredentialsApi (.str "u@x.com") (.str "bad")
        staleState).state =
      { authToken := .null, user := .null, isLoggedIn := false, isLoading := false,
        error := .str "Invalid credentials" } :=
  (login_failure formatErrorMessages invalidCredentialsApi (.str "u@x.com") (.str "bad")
    staleState).1 ⟨"Invalid credentials"⟩ rfl

/-- C4: `checkAuth` never rejects and never changes the stored error. With the token taken
to be the stored `authToken` when that is truthy and the result of `requestAccessToken`
otherwise: if a truthy token `t` is obtained and `requestUserData t` returns `u`, the final
state is `{ authToken: t, user: u, isLoggedIn: true, isLoading: false }`; in every other
case it has no token, no user, `isLoggedIn = false` and `isLoading = false`. -/
theorem checkAuth_spec (fmt : JSVal → String) (api : Api) (s : AuthState) :
    (checkAuth fmt api s).result = .ok () ∧
    (checkAuth fmt api s).state.error = s.error ∧
    (∀ t u,
      (if s.authToken.truthy then Except.ok s.authToken
        else (requestAccessToken fmt api s).result) = .ok t →
      t.truthy = true → (requestUserData fmt api t s).result = .ok u →
      (checkAuth fmt api s).state =
        { authToken := t, user := u, isLoggedIn := true, isLoading := false,
          error := s.error }) ∧
    ((¬ ∃ t u,
        (if s.authToken.truthy then Except.ok s.authToken
          else (requestAccessToken fmt api s).result) = .ok t ∧
        t.truthy = true ∧ (requestUserData fmt api t s).result = .ok u) →
      (checkAuth fmt api s).state =
        { authToken := .null, user := .null, isLoggedIn := false, isLoading := false,
          error := s.error }) := by
  have hrun : checkAuth fmt api s =
      AuthM.tryCatch (checkAuthTry fmt api) (fun _ => AuthM.set resetSession)
        (setIsLoading true s) := rfl
  have htok : (if (setIsLoading true s).authToken.truthy then Except.ok (setIsLoading true s).authToken
        else (requestAccessToken fmt api (setIsLoading true s)).result) =
      (if s.authToken.truthy then Except.ok s.authToken
        else (requestAccessToken fmt api s).result) := by
    rw [requestAccessToken_run fmt api s, requestAccessToken_run fmt api (setIsLoading true s)]
    rfl
  have hbody := checkAuthTry_eq fmt api (setIsLoading true s)
  rw [htok] at hbody
  rcases htk : (if s.authToken.truthy then Except.ok s.authToken
        else (requestAccessToken fmt api s).result) with e | t
  · rw [htk] at hbody
    have h := tryCatch_error (fun _ => AuthM.set resetSession) hbody
    rw [hrun, h]
    refine ⟨rfl, rfl, ?_, fun _ => rfl⟩
    intro t u ht
    cases ht
  · rw [htk] at hbody
    simp only [] at hbody
    cases htt : t.truthy
    · rw [htt] at hbody
      have h := tryCatch_error (fun _ => AuthM.set resetSession) hbody
      rw [hrun, h]
      refine ⟨rfl, rfl, ?_, fun _ => rfl⟩
      intro t1 u ht ht1
      cases ht
      rw [htt] at ht1
      cases ht1
    · rw [htt, requestUserData_result fmt api t _ s] at hbody
      rcases hu : (requestUserData fmt api t s).result with e | u
      · rw [hu] at hbody
        have h := tryCatch_error (fun _ => AuthM.set resetSession) hbody
        rw [hrun, h]
        refine ⟨rfl, rfl, ?_, fun _ => rfl⟩
        intro t1 u1 ht _ hu1
        cases ht
        rw [hu] at hu1
        cases hu1
      · rw [hu] at hbody
        have h := tryCatch_ok (fun _ => AuthM.set resetSession) hbody
        rw [hrun, h]
        refine ⟨rfl, rfl, ?_, ?_⟩
        · intro t1 u1 ht _ hu1
          cases ht
          rw [hu] at hu1
          cases hu1
          rfl
        · intro hne
          exact absurd ⟨t, u, rfl, htt, hu⟩ hne

/-- Bootstrap at start-up against a server that refreshes to `"t1"` and knows the user;
the stored error stays `null`. -/
theorem checkAuth_spec_witness :
    (checkAuth formatErrorMessages scenarioApi initialState).state =
      { authToken := .str "t1", user := profileU, isLoggedIn := true, isLoading := false,
        error := .null } :=
  (checkAuth_spec formatErrorMessages scenarioApi initialState).2.2.1 (.str "t1") profileU
    rfl rfl rfl

/-- C5, as the claim states it, fails: on a success answer `{data: {access_token: null}}`
of `/refresh`, `requestAccessToken` returns the falsy token `null` and raises nothing. -/
theorem requestAccessToken_returns_falsy_token :
    nullTokenApi.refresh = .ok ⟨true, .ok (tokenBody .null)⟩ ∧
    (requestAccessToken formatErrorMessages nullTokenApi initialState).result = .ok .null ∧
    JSVal.null.truthy = false :=
  ⟨rfl, rfl, rfl⟩

/-- C5, amended: on a success answer of `/refresh` whose body has `data.access_token = t`,
`requestAccessToken` returns `t` as it is, truthy or not, and writes no state. The error
`"Failed to refresh access token"` for a falsy token is raised by the caller: the `try`
block of `checkAuth`, started without a truthy stored token, raises it, and `checkAuth`
catches it and ends with the session reset. -/
theorem requestAccessToken_unchecked (fmt : JSVal → String) (api : Api) (s : AuthState)
    (j d t : JSVal) (hr : api.refresh = .ok ⟨true, .ok j⟩)
    (hd : j.getProp "data" = .ok d) (ht : d.getProp "access_token" = .ok t) :
    requestAccessToken fmt api s = ⟨s, .ok t⟩ ∧
    (s.authToken.truthy = false → t.truthy = false →
      checkAuthTry fmt api s = ⟨s, .error ⟨"Failed to refresh access token"⟩⟩ ∧
      checkAuth fmt api s = ⟨resetSession s, .ok ()⟩) := by
  have hreq : ∀ s1 : AuthState, requestAccessToken fmt api s1 = ⟨s1, .ok t⟩ := by
    intro s1
    simp [requestAccessToken, hr, hd, ht]
  refine ⟨hreq s, ?_⟩
  intro hs htt
  have hbody : ∀ s1 : AuthState, s1.authToken.truthy = false →
      checkAuthTry fmt api s1 = ⟨s1, .error ⟨"Failed to refresh access token"⟩⟩ := by
    intro s1 hs1
    rw [checkAuthTry_eq, hs1, hreq s1]
    simp [htt]
  refine ⟨hbody s hs, ?_⟩
  have hrun : checkAuth fmt api s =
      AuthM.tryCatch (checkAuthTry fmt api) (fun _ => AuthM.set resetSession)
        (setIsLoading true s) := rfl
  rw [hrun, tryCatch_error _ (hbody (setIsLoading true s) hs)]
  rfl

/-- Bootstrap against a server that refreshes to `null`. -/
theorem requestAccessToken_unchecked_witness :
    requestAccessToken formatErrorMessages nullTokenApi initialState =
      ⟨initialState, .ok .null⟩ ∧
    checkAuthTry formatErrorMessages nullTokenApi initialState =
      ⟨initialState, .error ⟨"Failed to refresh access token"⟩⟩ ∧
    checkAuth formatErrorMessages nullTokenApi initialState =
      ⟨resetSession initialState, .ok ()⟩ :=
  have h := requestAccessToken_unchecked formatErrorMessages nullTokenApi initialState
    (tokenBody .null) (.obj [("access_token", .null)]) .null rfl rfl rfl
  ⟨h.1, h.2 rfl rfl⟩

/-- C6, as the claim states it, fails: `/me` answers with a success status and the JSON body
`null`. The status is success and no `data` field that is `null` can be read, yet
`requestUserData` raises (the `TypeError` of `json.data`) instead of returning. -/
theorem requestUserData_null_payload_raises :
    nullPayloadApi.me (.str "t1") = .ok ⟨true, .ok .null⟩ ∧
    JSVal.null.getProp "data" ≠ .ok .null ∧
    (requestUserData formatErrorMessages nullPayloadApi (.str "t1") initialState).result =
      .error ⟨typeErrorMessage "null" "data"⟩ :=
  ⟨rfl, by simp [JSVal.getProp], rfl⟩

/-- C6, amended: for every token and every parsed response of `/me`, `requestUserData`
raises if the status is non-success, if the payload itself is `null` (or `undefined`), so
that its `data` field cannot be read, or if the `data` field is `null`; in every remaining
case the payload has a `data` field and `requestUserData` returns it unchanged. It writes
no state in any case. -/
theorem requestUserData_spec (fmt : JSVal → String) (api : Api) (token : JSVal)
    (s : AuthState) (r : Response) (j : JSVal)
    (hm : api.me token = .ok r) (hj : r.json = .ok j) :
    (requestUserData fmt api token s).state = s ∧
    (r.ok = false → ∃ e, (requestUserData fmt api token s).result = .error e) ∧
    ((j = .null ∨ j = .undefined) → ∃ e, (requestUserData fmt api token s).result = .error e) ∧
    (j.getProp "data" = .ok .null →
      ∃ e, (requestUserData fmt api token s).result = .error e) ∧
    (r.ok = true → j ≠ .null → j ≠ .undefined → j.getProp "data" ≠ .ok .null →
      ∃ d, j.getProp "data" = .ok d ∧ (requestUserData fmt api token s).result = .ok d) := by
  rcases r with ⟨ok, rj⟩
  simp only at hj
  subst hj
  refine ⟨by rw [requestUserData_run], ?_, ?_, ?_, ?_⟩
  · intro hok
    simp only at hok
    subst hok
    rcases hmsg : j.getProp "message" with e | m
    · exact ⟨e, by simp [requestUserData, hm, hmsg]⟩
    · exact ⟨⟨fmt m⟩, by simp [requestUserData, hm, hmsg]⟩
  · intro hnull
    obtain ⟨e1, he1⟩ := (getProp_error_iff j "data").mpr hnull
    obtain ⟨e2, he2⟩ := (getProp_error_iff j "message").mpr hnull
    cases ok
    · exact ⟨e2, by simp [requestUserData, hm, he2]⟩
    · exact ⟨e1, by simp [requestUserData, hm, he1]⟩
  · intro hdata
    rcases hmsg : j.getProp "message" with e | m
    · exact ⟨e, by cases ok <;> simp [requestUserData, hm, hmsg, hdata, JSVal.isNull]⟩
    · exact ⟨⟨fmt m⟩, by cases ok <;> simp [requestUserData, hm, hmsg, hdata, JSVal.isNull]⟩
  · intro hok hn hu hdata
    simp only at hok
    subst hok
    rcases hd : j.getProp "data" with e | d
    · exact absurd ((getProp_error_iff j "data").mp ⟨e, hd⟩) (by simp [hn, hu])
    · have hdn : d.isNull = false := by
        rw [isNull_eq_false]
        intro h
        rw [hd, h] at hdata
        exact hdata rfl
      exact ⟨d, rfl, by simp [requestUserData, hm, hd, hdn]⟩

/-- The profile endpoint of the scenario answers 200 with `{data: {id: 1, name: "U"}}`. -/
theorem requestUserData_spec_witness :
    (requestUserData formatErrorMessages scenarioApi (.str "t1") staleState).state = staleState ∧
    ∃ d, (JSVal.obj [("data", profileU)]).getProp "data" = .ok d ∧
      (requestUserData formatErrorMessages scenarioApi (.str "t1") staleState).result = .ok d :=
  have h := requestUserData_spec formatErrorMessages scenarioApi (.str "t1") staleState
    ⟨true, .ok (.obj [("data", profileU)])⟩ (.obj [("data", profileU)]) rfl rfl
  ⟨h.1, h.2.2.2.2 rfl (by simp) (by simp) (by simp [JSVal.getProp, profileU])⟩

/-- C7: on a non-success answer of `/register` whose body has `message = m`, `register`
rejects with the normalized message `fmt m`, and the final state has that message as stored
error, `isLoading = false`, no token, no user and `isLoggedIn = false`; this for every
formatter `fmt`. With the formatter of the spec and `m = "Email taken"` the stored error is
exactly `"Email taken"`. -/
theorem register_failure (fmt : JSVal → String) (api : Api)
    (email password passwordConfirmation : JSVal) (s : AuthState) (j m : JSVal)
    (hr : api.register email password passwordConfirmation = .ok ⟨false, .ok j⟩)
    (hm : j.getProp "message" = .ok m) :
    register fmt api email password passwordConfirmation s =
      ⟨{ authToken := .null, user := .null, isLoggedIn := false, isLoading := false,
         error := .str (fmt m) }, .error ⟨fmt m⟩⟩ ∧
    (m = .str "Email taken" →
      (register formatErrorMessages api email password passwordConfirmation s).state.error =
        .str "Email taken") := by
  have key : ∀ f : JSVal → String,
      register f api email password passwordConfirmation s =
        ⟨{ authToken := .null, user := .null, isLoggedIn := false, isLoading := false,
           error := .str (f m) }, .error ⟨f m⟩⟩ := by
    intro f
    simp [register, AuthM.tryCatch, hr, hm, resetSession, setError, setIsLoading,
      setIsLoggedIn, setUser, setAuthToken]
  refine ⟨key fmt, ?_⟩
  intro hmv
  rw [key formatErrorMessages, hmv]
  rfl

/-- The scenario of the spec: HTTP 422 with `{message: "Email taken"}`, on top of an
existing session. -/
theorem register_failure_witness :
    register formatErrorMessages emailTakenApi (.str "u@x.com") (.str "pw") (.str "pw")
        staleState =
      ⟨{ authToken := .null, user := .null, isLoggedIn := false, isLoading := false,
         error := .str "Email taken" }, .error ⟨"Email taken"⟩⟩ :=
  (register_failure formatErrorMessages emailTakenApi (.str "u@x.com") (.str "pw") (.str "pw")
    staleState (.obj [("message", .str "Email taken")]) (.str "Email taken") rfl rfl).1

/-- C8, as the claim states it, fails: `/register` answers with a success status and an empty
body. `response.json()` rejects before the status is looked at, so `register` rejects
instead of returning `true`, stores the parse error and resets the session. -/
theorem register_success_status_rejects :
    (∃ r, emptyBodyRegisterApi.register (.str "u@x.com") (.str "pw") (.str "pw") = .ok r ∧
      r.ok = true) ∧
    register formatErrorMessages emptyBodyRegisterApi (.str "u@x.com") (.str "pw") (.str "pw")
        staleState =
      ⟨{ authToken := .null, user := .null, isLoggedIn := false, isLoading := false,
         error := .str "Unexpected end of JSON input" },
        .error ⟨"Unexpected end of JSON input"⟩⟩ :=
  ⟨⟨_, rfl, rfl⟩, rfl⟩

/-- C8, amended: on every success-status answer of `/register` whose body parses as JSON,
`register` returns `true`, sets `isLoading = false` and leaves `authToken`, `user`,
`isLoggedIn` and `error` as they were. -/
theorem register_success (fmt : JSVal → String) (api : Api)
    (email password passwordConfirmation : JSVal) (s : AuthState) (j : JSVal)
    (hr : api.register email password passwordConfirmation = .ok ⟨true, .ok j⟩) :
    register fmt api email password passwordConfirmation s =
      ⟨{ authToken := s.authToken, user := s.user, isLoggedIn := s.isLoggedIn,
         isLoading := false, error := s.error }, .ok true⟩ := by
  simp [register, AuthM.tryCatch, hr, setIsLoading]

/-- Registration answered with 201 and `{}` while a session and an error are stored. -/
theorem register_success_witness :
    register formatErrorMessages createdRegisterApi (.str "u@x.com") (.str "pw") (.str "pw")
        staleState =
      ⟨{ authToken := .str "t0", user := profileU, isLoggedIn := true, isLoading := false,
         error := .str "old" }, .ok true⟩ :=
  register_success formatErrorMessages createdRegisterApi (.str "u@x.com") (.str "pw")
    (.str "pw") staleState (.obj []) rfl

/-- C1 at its failing input: from the initial state, one `login` during which `/login` answers
200 with `{data: {access_token: null}}` and `/me` answers 200 with `{data: {id: 1, name: "U"}}`
ends with a user and `isLoggedIn = true` but `authToken = null`, so the invariant does not
hold in that reachable state. -/
theorem login_null_token_breaks_invariant :
    Reachable formatErrorMessages
      { authToken := .null, user := profileU, isLoggedIn := true, isLoading := false,
        error := .null } ∧
    login formatErrorMessages nullTokenApi (.str "u@x.com") (.str "pw") initialState =
      ⟨{ authToken := .null, user := profileU, isLoggedIn := true, isLoading := false,
         error := .null }, .ok ()⟩ ∧
    ¬ sessionInvariant
      { authToken := .null, user := profileU, isLoggedIn := true, isLoading := false,
        error := .null } := by
  refine ⟨⟨[Op.login nullTokenApi (.str "u@x.com") (.str "pw")], rfl⟩, rfl, ?_⟩
  intro h
  exact (h.2.mpr rfl) rfl

end AuthContextProvider
